import Mathlib

/-!
Shallow embedding of the `advisory-lock` crate (src/lib.rs, src/unix.rs,
src/windows.rs) and proofs about its lock/unlock error mapping, the native
lock requests it issues, and the lifecycle of its lock handle.

The native OS calls (`flock`, `LockFileEx`, `UnlockFileEx`, `OpenOptions::open`)
are modelled as oracle functions supplied as parameters: the embedding computes
exactly the arguments the Rust code passes to the native call and maps the
oracle's outcome back exactly as the Rust code maps the native result.
-/

namespace AdvisoryLock

/-- The error type of the crate (`FileLockError` in src/lib.rs).
`Io` wraps an OS-level error, modelled by its optional raw OS error code
(mirroring `std::io::Error::raw_os_error`). -/
structure IoError where
  raw_os_error : Option Int
deriving DecidableEq

/-- Mirrors `std::io::Error::from_raw_os_error`. -/
def IoError.from_raw_os_error (code : Int) : IoError :=
  { raw_os_error := some code }

/-- Modelled from the standard library: the `Display` rendering of an
`std::io::Error`. The claims never depend on the exact text. -/
def IoError.display (e : IoError) : String :=
  match e.raw_os_error with
  | some code => "os error " ++ toString code
  | none => "unknown error"

/-- `FileLockError` from src/lib.rs: either the file is already locked, or an
I/O error occurred. -/
inductive FileLockError where
  | AlreadyLocked : FileLockError
  | Io : IoError → FileLockError
deriving DecidableEq

/-- The `Display` impl for `FileLockError` in src/lib.rs. -/
def FileLockError.display : FileLockError → String
  | FileLockError.AlreadyLocked => "the file is already locked"
  | FileLockError.Io err => "I/O error: " ++ err.display

/-- `FileLockMode` from src/lib.rs: shared or exclusive. -/
inductive FileLockMode where
  | Exclusive : FileLockMode
  | Shared : FileLockMode
deriving DecidableEq

/-- An open file, identified by its raw OS descriptor/handle
(`as_raw_fd` on unix, `as_raw_handle` on windows). -/
structure File where
  handle : Int
deriving DecidableEq

namespace unix

/-- libc constant `LOCK_SH`. -/
def LOCK_SH : Nat := 1

/-- libc constant `LOCK_EX`. -/
def LOCK_EX : Nat := 2

/-- libc constant `LOCK_NB`. -/
def LOCK_NB : Nat := 4

/-- libc constant `LOCK_UN`. -/
def LOCK_UN : Nat := 8

/-- libc constant `EWOULDBLOCK` (same value as `EAGAIN` on Linux). -/
def EWOULDBLOCK : Int := 11

/-- Outcome of one native `libc::flock` call: its return value together with
the `Error::last_os_error()` observed right after it. -/
structure FlockOutcome where
  result : Int
  last_os_error : IoError
deriving DecidableEq

/-- `lock_file` from src/unix.rs: build the flag word from the mode, OR in
`LOCK_NB` when the immediate (try) variant is requested, issue the native
`flock` call (the oracle `flockFn`), and map its result. -/
def lock_file (flockFn : Int → Nat → FlockOutcome) (raw_fd : Int)
    (file_lock_mode : FileLockMode) (immediate : Bool) :
    Except FileLockError Unit :=
  let flags : Nat :=
    match file_lock_mode with
    | FileLockMode.Shared => LOCK_SH
    | FileLockMode.Exclusive => LOCK_EX
  let flags : Nat := if immediate then flags ||| LOCK_NB else flags
  let out := flockFn raw_fd flags
  if out.result ≠ 0 then
    let last_os_error := out.last_os_error
    Except.error
      (match last_os_error.raw_os_error with
        | some code =>
          if code = EWOULDBLOCK then FileLockError.AlreadyLocked
          else FileLockError.Io last_os_error
        | none => FileLockError.Io last_os_error)
  else
    Except.ok ()

/-- `unlock_file` from src/unix.rs: issue `flock(fd, LOCK_UN)` and map the
result; any failure surfaces as `Io`. -/
def unlock_file (flockFn : Int → Nat → FlockOutcome) (raw_fd : Int) :
    Except FileLockError Unit :=
  let out := flockFn raw_fd LOCK_UN
  if out.result = 0 then Except.ok ()
  else Except.error (FileLockError.Io out.last_os_error)

/-- The blocking `lock` of the unix backend (src/unix.rs, `impl for RawFd` /
`impl for File`): `lock_file(fd, mode, false)`. -/
def fileLock (flockFn : Int → Nat → FlockOutcome) (f : File)
    (file_lock_mode : FileLockMode) : Except FileLockError Unit :=
  lock_file flockFn f.handle file_lock_mode false

/-- The non-blocking `try_lock` of the unix backend:
`lock_file(fd, mode, true)`. -/
def fileTryLock (flockFn : Int → Nat → FlockOutcome) (f : File)
    (file_lock_mode : FileLockMode) : Except FileLockError Unit :=
  lock_file flockFn f.handle file_lock_mode true

/-- The `unlock` of the unix backend: `unlock_file(fd)`. -/
def fileUnlock (flockFn : Int → Nat → FlockOutcome) (f : File) :
    Except FileLockError Unit :=
  unlock_file flockFn f.handle

end unix

namespace windows

/-- winapi constant `TRUE`. -/
def TRUE : Int := 1

/-- winapi constant `ERROR_LOCKED`. -/
def ERROR_LOCKED : Nat := 212

/-- winapi constant `ERROR_NOT_LOCKED`. -/
def ERROR_NOT_LOCKED : Nat := 158

/-- winapi constant `LOCKFILE_FAIL_IMMEDIATELY`. -/
def LOCKFILE_FAIL_IMMEDIATELY : Nat := 1

/-- winapi constant `LOCKFILE_EXCLUSIVE_LOCK`. -/
def LOCKFILE_EXCLUSIVE_LOCK : Nat := 2

/-- `u32::MAX`. -/
def u32MAX : Nat := 4294967295

/-- `usize::MAX` (64-bit target). -/
def usizeMAX : Nat := 18446744073709551615

/-- The null pointer `NULL`. -/
def NULL : Int := 0

/-- The `OVERLAPPED` structure handed to `LockFileEx`/`UnlockFileEx`: the
`Offset`/`OffsetHigh` pair is the low/high half of the 64-bit starting byte
offset of the range to lock. -/
structure OVERLAPPED where
  Internal : Nat
  InternalHigh : Nat
  Offset : Nat
  OffsetHigh : Nat
  hEvent : Int
deriving DecidableEq

/-- `create_overlapped` from src/windows.rs: both offset halves set to
`u32::MAX`, `Internal`/`InternalHigh` set to `usize::MAX`, no event handle. -/
def create_overlapped : OVERLAPPED :=
  { Internal := usizeMAX
    InternalHigh := usizeMAX
    Offset := u32MAX
    OffsetHigh := u32MAX
    hEvent := NULL }

/-- One call to the native `LockFileEx`, with every argument the Rust code
passes (handle, flags, reserved word, low/high halves of the byte count, and
the `OVERLAPPED` carrying the starting offset). -/
structure LockFileExCall where
  hFile : Int
  dwFlags : Nat
  dwReserved : Nat
  nNumberOfBytesToLockLow : Nat
  nNumberOfBytesToLockHigh : Nat
  lpOverlapped : OVERLAPPED
deriving DecidableEq

/-- The 64-bit starting byte offset of the range a `LockFileEx` call locks:
`Offset + 2^32 * OffsetHigh` of its `OVERLAPPED`. -/
def LockFileExCall.startOffset (c : LockFileExCall) : Nat :=
  c.lpOverlapped.Offset + 4294967296 * c.lpOverlapped.OffsetHigh

/-- The 64-bit byte length of the range a `LockFileEx` call locks:
`low + 2^32 * high` of the byte-count arguments. -/
def LockFileExCall.lockLength (c : LockFileExCall) : Nat :=
  c.nNumberOfBytesToLockLow + 4294967296 * c.nNumberOfBytesToLockHigh

/-- One call to the native `UnlockFileEx`, with every argument the Rust code
passes. -/
structure UnlockFileExCall where
  hFile : Int
  dwReserved : Nat
  nNumberOfBytesToUnlockLow : Nat
  nNumberOfBytesToUnlockHigh : Nat
  lpOverlapped : OVERLAPPED
deriving DecidableEq

/-- The 64-bit starting byte offset of the range an `UnlockFileEx` call
unlocks. -/
def UnlockFileExCall.startOffset (c : UnlockFileExCall) : Nat :=
  c.lpOverlapped.Offset + 4294967296 * c.lpOverlapped.OffsetHigh

/-- The 64-bit byte length of the range an `UnlockFileEx` call unlocks. -/
def UnlockFileExCall.unlockLength (c : UnlockFileExCall) : Nat :=
  c.nNumberOfBytesToUnlockLow + 4294967296 * c.nNumberOfBytesToUnlockHigh

/-- Outcome of one native `LockFileEx`/`UnlockFileEx` call: its `BOOL` return
value and the `GetLastError()` observed right after it (a `DWORD`). -/
structure WinOutcome where
  result : Int
  lastError : Nat
deriving DecidableEq

/-- The `raw_error as i32` cast from src/windows.rs: reinterpret a `u32` as a
signed 32-bit value. -/
def i32_of_u32 (n : Nat) : Int :=
  if n % 4294967296 < 2147483648 then (n % 4294967296 : Nat)
  else (n % 4294967296 : Nat) - 4294967296

/-- The flag word `lock_file` in src/windows.rs builds: `LOCKFILE_EXCLUSIVE_LOCK`
for exclusive mode, OR `LOCKFILE_FAIL_IMMEDIATELY` when immediate. -/
def lockFlags (file_lock_mode : FileLockMode) (immediate : Bool) : Nat :=
  let flags : Nat := 0
  let flags : Nat :=
    if file_lock_mode = FileLockMode.Exclusive then flags ||| LOCKFILE_EXCLUSIVE_LOCK
    else flags
  let flags : Nat := if immediate then flags ||| LOCKFILE_FAIL_IMMEDIATELY else flags
  flags

/-- The exact `LockFileEx` call `lock_file` in src/windows.rs issues:
`LockFileEx(handle, flags, 0, 1, 0, &overlapped)` with the overlapped from
`create_overlapped`. -/
def lockRequest (raw_handle : Int) (file_lock_mode : FileLockMode)
    (immediate : Bool) : LockFileExCall :=
  { hFile := raw_handle
    dwFlags := lockFlags file_lock_mode immediate
    dwReserved := 0
    nNumberOfBytesToLockLow := 1
    nNumberOfBytesToLockHigh := 0
    lpOverlapped := create_overlapped }

/-- `lock_file` from src/windows.rs: issue the `LockFileEx` call (the oracle
`api`) and map its result; on failure, `GetLastError() == ERROR_LOCKED` maps to
`AlreadyLocked` and any other code to `Io(from_raw_os_error(code as i32))`. -/
def lock_file (api : LockFileExCall → WinOutcome) (raw_handle : Int)
    (file_lock_mode : FileLockMode) (immediate : Bool) :
    Except FileLockError Unit :=
  let out := api (lockRequest raw_handle file_lock_mode immediate)
  if out.result ≠ TRUE then
    if out.lastError = ERROR_LOCKED then
      Except.error FileLockError.AlreadyLocked
    else
      Except.error (FileLockError.Io (IoError.from_raw_os_error (i32_of_u32 out.lastError)))
  else
    Except.ok ()

/-- The exact `UnlockFileEx` call `unlock_file` in src/windows.rs issues:
`UnlockFileEx(handle, 0, 1, 0, &overlapped)` with the overlapped from
`create_overlapped`. -/
def unlockRequest (raw_handle : Int) : UnlockFileExCall :=
  { hFile := raw_handle
    dwReserved := 0
    nNumberOfBytesToUnlockLow := 1
    nNumberOfBytesToUnlockHigh := 0
    lpOverlapped := create_overlapped }

/-- `unlock_file` from src/windows.rs: issue the `UnlockFileEx` call (the
oracle `api`); success maps to `Ok`, failure with
`GetLastError() == ERROR_NOT_LOCKED` is also treated as `Ok`, and any other
failure code maps to `Io(from_raw_os_error(code as i32))`. -/
def unlock_file (api : UnlockFileExCall → WinOutcome) (raw_handle : Int) :
    Except FileLockError Unit :=
  let out := api (unlockRequest raw_handle)
  if out.result = TRUE then
    Except.ok ()
  else
    if out.lastError = ERROR_NOT_LOCKED then Except.ok ()
    else Except.error (FileLockError.Io (IoError.from_raw_os_error (i32_of_u32 out.lastError)))

end windows

/-- `std::fs::OpenOptions`, restricted to the three flags src/lib.rs sets
(`read`, `write`, `create`); each defaults to false in `OpenOptions::new()`. -/
structure OpenOptions where
  readFlag : Bool
  writeFlag : Bool
  createFlag : Bool
deriving DecidableEq

/-- `OpenOptions::new()`: all flags off. -/
def OpenOptions.new : OpenOptions :=
  { readFlag := false, writeFlag := false, createFlag := false }

/-- The `.read(b)` builder method. -/
def OpenOptions.read (o : OpenOptions) (b : Bool) : OpenOptions :=
  { o with readFlag := b }

/-- The `.write(b)` builder method. -/
def OpenOptions.write (o : OpenOptions) (b : Bool) : OpenOptions :=
  { o with writeFlag := b }

/-- The `.create(b)` builder method. -/
def OpenOptions.create (o : OpenOptions) (b : Bool) : OpenOptions :=
  { o with createFlag := b }

/-- `AdvisoryFileLock` from src/lib.rs: an open file plus the lock mode chosen
at construction. -/
structure AdvisoryFileLock where
  file : File
  file_lock_mode : FileLockMode
deriving DecidableEq

/-- The option set `AdvisoryFileLock::new` in src/lib.rs passes to `open`:
`OpenOptions::new().read(true).create(is_exclusive).write(is_exclusive)` where
`is_exclusive` is whether the requested mode is `Exclusive`. -/
def AdvisoryFileLock.openOptionsFor (file_lock_mode : FileLockMode) : OpenOptions :=
  let is_exclusive : Bool := decide (file_lock_mode = FileLockMode.Exclusive)
  ((OpenOptions.new.read true).create is_exclusive).write is_exclusive

/-- `AdvisoryFileLock::new` from src/lib.rs: open the file at `path` with the
options for the mode (the oracle `openFn` models `OpenOptions::open`); an open
error is wrapped in `FileLockError::Io`, success yields the handle. -/
def AdvisoryFileLock.new (openFn : String → OpenOptions → Except IoError File)
    (path : String) (file_lock_mode : FileLockMode) :
    Except FileLockError AdvisoryFileLock :=
  match openFn path (AdvisoryFileLock.openOptionsFor file_lock_mode) with
  | Except.error e => Except.error (FileLockError.Io e)
  | Except.ok file => Except.ok { file := file, file_lock_mode := file_lock_mode }

/-- `AdvisoryFileLock::is_shared` from src/lib.rs. -/
def AdvisoryFileLock.is_shared (self : AdvisoryFileLock) : Bool :=
  decide (self.file_lock_mode = FileLockMode.Shared)

/-- `AdvisoryFileLock::is_exclusive` from src/lib.rs. -/
def AdvisoryFileLock.is_exclusive (self : AdvisoryFileLock) : Bool :=
  decide (self.file_lock_mode = FileLockMode.Exclusive)

/-- `AdvisoryFileLock::lock` on the unix backend: the method takes `&mut self`,
delegates to `lock_file(fd, mode, false)` (src/unix.rs) and assigns no field,
so it returns the result together with the unchanged handle state. -/
def AdvisoryFileLock.lock_impl_unix (flockFn : Int → Nat → unix.FlockOutcome)
    (self : AdvisoryFileLock) : Except FileLockError Unit × AdvisoryFileLock :=
  (unix.fileLock flockFn self.file self.file_lock_mode, self)

/-- `AdvisoryFileLock::try_lock` on the unix backend:
`lock_file(fd, mode, true)`, handle state unchanged. -/
def AdvisoryFileLock.try_lock_impl_unix (flockFn : Int → Nat → unix.FlockOutcome)
    (self : AdvisoryFileLock) : Except FileLockError Unit × AdvisoryFileLock :=
  (unix.fileTryLock flockFn self.file self.file_lock_mode, self)

/-- `AdvisoryFileLock::unlock` on the unix backend: `unlock_file(fd)`, handle
state unchanged. -/
def AdvisoryFileLock.unlock_impl_unix (flockFn : Int → Nat → unix.FlockOutcome)
    (self : AdvisoryFileLock) : Except FileLockError Unit × AdvisoryFileLock :=
  (unix.fileUnlock flockFn self.file, self)

/-- `AdvisoryFileLock::lock_impl` from src/windows.rs:
`lock_file(self.file.as_raw_handle(), self.file_lock_mode, false)`; the method
assigns no field, so the handle state is unchanged. -/
def AdvisoryFileLock.lock_impl_windows (api : windows.LockFileExCall → windows.WinOutcome)
    (self : AdvisoryFileLock) : Except FileLockError Unit × AdvisoryFileLock :=
  (windows.lock_file api self.file.handle self.file_lock_mode false, self)

/-- `AdvisoryFileLock::try_lock_impl` from src/windows.rs:
`lock_file(handle, mode, true)`, handle state unchanged. -/
def AdvisoryFileLock.try_lock_impl_windows (api : windows.LockFileExCall → windows.WinOutcome)
    (self : AdvisoryFileLock) : Except FileLockError Unit × AdvisoryFileLock :=
  (windows.lock_file api self.file.handle self.file_lock_mode true, self)

/-- `AdvisoryFileLock::unlock_impl` from src/windows.rs:
`unlock_file(handle)`, handle state unchanged. -/
def AdvisoryFileLock.unlock_impl_windows (api : windows.UnlockFileExCall → windows.WinOutcome)
    (self : AdvisoryFileLock) : Except FileLockError Unit × AdvisoryFileLock :=
  (windows.unlock_file api self.file.handle, self)

/-- `Drop for AdvisoryFileLock` (src/lib.rs), unix backend: attempt
`self.unlock()`; on failure emit one `log::error!` line rendering the error,
on success emit nothing. The return type is the list of emitted log lines
only — a destructor has no error channel, so nothing is propagated. -/
def AdvisoryFileLock.dropUnix (flockFn : Int → Nat → unix.FlockOutcome)
    (self : AdvisoryFileLock) : List String :=
  match (self.unlock_impl_unix flockFn).1 with
  | Except.error err => ["Unlock_file failed during dropping: " ++ err.display]
  | Except.ok _ => []

/-- `Drop for AdvisoryFileLock` (src/lib.rs), windows backend: attempt
`self.unlock()`; on failure emit one `log::error!` line, on success emit
nothing; nothing is propagated. -/
def AdvisoryFileLock.dropWindows (api : windows.UnlockFileExCall → windows.WinOutcome)
    (self : AdvisoryFileLock) : List String :=
  match (self.unlock_impl_windows api).1 with
  | Except.error err => ["Unlock_file failed during dropping: " ++ err.display]
  | Except.ok _ => []

/-- One of the three public operations of the handle. -/
inductive LockOp where
  | lockOp : LockOp
  | tryLockOp : LockOp
  | unlockOp : LockOp
deriving DecidableEq

/-- Run one public operation on the handle, unix backend. -/
def AdvisoryFileLock.stepUnix (flockFn : Int → Nat → unix.FlockOutcome)
    (self : AdvisoryFileLock) : LockOp → Except FileLockError Unit × AdvisoryFileLock
  | LockOp.lockOp => self.lock_impl_unix flockFn
  | LockOp.tryLockOp => self.try_lock_impl_unix flockFn
  | LockOp.unlockOp => self.unlock_impl_unix flockFn

/-- Run a sequence of public operations on the handle, unix backend, threading
the handle state through. -/
def AdvisoryFileLock.runUnix (flockFn : Int → Nat → unix.FlockOutcome)
    (self : AdvisoryFileLock) : List LockOp → AdvisoryFileLock
  | [] => self
  | op :: rest => AdvisoryFileLock.runUnix flockFn (self.stepUnix flockFn op).2 rest

/-- Run one public operation on the handle, windows backend. -/
def AdvisoryFileLock.stepWindows (lapi : windows.LockFileExCall → windows.WinOutcome)
    (uapi : windows.UnlockFileExCall → windows.WinOutcome)
    (self : AdvisoryFileLock) : LockOp → Except FileLockError Unit × AdvisoryFileLock
  | LockOp.lockOp => self.lock_impl_windows lapi
  | LockOp.tryLockOp => self.try_lock_impl_windows lapi
  | LockOp.unlockOp => self.unlock_impl_windows uapi

/-- Run a sequence of public operations on the handle, windows backend. -/
def AdvisoryFileLock.runWindows (lapi : windows.LockFileExCall → windows.WinOutcome)
    (uapi : windows.UnlockFileExCall → windows.WinOutcome)
    (self : AdvisoryFileLock) : List LockOp → AdvisoryFileLock
  | [] => self
  | op :: rest => AdvisoryFileLock.runWindows lapi uapi (self.stepWindows lapi uapi op).2 rest

/-! ## Helper lemmas -/

/-- Evaluation of the unix `lock_file` under a constant native outcome. -/
theorem unix_lock_file_const_eq (out : unix.FlockOutcome) (raw_fd : Int)
    (file_lock_mode : FileLockMode) (immediate : Bool) :
    unix.lock_file (fun _ _ => out) raw_fd file_lock_mode immediate =
      if out.result = 0 then Except.ok ()
      else
        match out.last_os_error.raw_os_error with
        | some code =>
            if code = unix.EWOULDBLOCK then Except.error FileLockError.AlreadyLocked
            else Except.error (FileLockError.Io out.last_os_error)
        | none => Except.error (FileLockError.Io out.last_os_error) := by
  unfold unix.lock_file
  by_cases h : out.result = 0
  · simp [h]
  · cases hcode : out.last_os_error.raw_os_error with
    | none => simp [h, hcode]
    | some code =>
        by_cases hc : code = unix.EWOULDBLOCK
        · simp [h, hcode, hc]
        · simp [h, hcode, hc]

/-- Evaluation of the unix `unlock_file`: the native call is
`flock(fd, LOCK_UN)` and its result decides the outcome. -/
theorem unix_unlock_file_eq (flockFn : Int → Nat → unix.FlockOutcome) (raw_fd : Int) :
    unix.unlock_file flockFn raw_fd =
      if (flockFn raw_fd unix.LOCK_UN).result = 0 then Except.ok ()
      else Except.error (FileLockError.Io (flockFn raw_fd unix.LOCK_UN).last_os_error) := rfl

/-- Evaluation of the windows `lock_file` under a constant native outcome. -/
theorem windows_lock_file_const_eq (wout : windows.WinOutcome) (raw_handle : Int)
    (file_lock_mode : FileLockMode) (immediate : Bool) :
    windows.lock_file (fun _ => wout) raw_handle file_lock_mode immediate =
      if wout.result = windows.TRUE then Except.ok ()
      else if wout.lastError = windows.ERROR_LOCKED then
        Except.error FileLockError.AlreadyLocked
      else
        Except.error (FileLockError.Io
          (IoError.from_raw_os_error (windows.i32_of_u32 wout.lastError))) := by
  unfold windows.lock_file
  by_cases h : wout.result = windows.TRUE <;> simp [h]

/-- Evaluation of the windows `unlock_file` under a constant native outcome. -/
theorem windows_unlock_file_const_eq (wout : windows.WinOutcome) (raw_handle : Int) :
    windows.unlock_file (fun _ => wout) raw_handle =
      if wout.result = windows.TRUE then Except.ok ()
      else if wout.lastError = windows.ERROR_NOT_LOCKED then Except.ok ()
      else
        Except.error (FileLockError.Io
          (IoError.from_raw_os_error (windows.i32_of_u32 wout.lastError))) := rfl

/-- Each unix-backend operation leaves the handle state unchanged. -/
theorem stepUnix_state (flockFn : Int → Nat → unix.FlockOutcome)
    (self : AdvisoryFileLock) (op : LockOp) :
    (self.stepUnix flockFn op).2 = self := by
  cases op <;> rfl

/-- Each windows-backend operation leaves the handle state unchanged. -/
theorem stepWindows_state (lapi : windows.LockFileExCall → windows.WinOutcome)
    (uapi : windows.UnlockFileExCall → windows.WinOutcome)
    (self : AdvisoryFileLock) (op : LockOp) :
    (self.stepWindows lapi uapi op).2 = self := by
  cases op <;> rfl

/-- Any sequence of unix-backend operations preserves the mode field. -/
theorem runUnix_mode (flockFn : Int → Nat → unix.FlockOutcome) (ops : List LockOp) :
    ∀ self : AdvisoryFileLock,
      (AdvisoryFileLock.runUnix flockFn self ops).file_lock_mode = self.file_lock_mode := by
  induction ops with
  | nil => intro self; rfl
  | cons op rest ih =>
      intro self
      simp only [AdvisoryFileLock.runUnix, stepUnix_state]
      exact ih self

/-- Any sequence of windows-backend operations preserves the mode field. -/
theorem runWindows_mode (lapi : windows.LockFileExCall → windows.WinOutcome)
    (uapi : windows.UnlockFileExCall → windows.WinOutcome) (ops : List LockOp) :
    ∀ self : AdvisoryFileLock,
      (AdvisoryFileLock.runWindows lapi uapi self ops).file_lock_mode = self.file_lock_mode := by
  induction ops with
  | nil => intro self; rfl
  | cons op rest ih =>
      intro self
      simp only [AdvisoryFileLock.runWindows, stepWindows_state]
      exact ih self

/-! ## Claim theorems -/

/-- Claim C1 (counterexample): the native lock request the Windows backend
issues (here for Exclusive mode, blocking variant, handle 7) starts at byte
offset 2^64 - 1 and covers exactly 1 byte; in particular it is not the range
the claim states (offset 0, length = maximum representable value). -/
theorem spec_C1_counterexample :
    (windows.lockRequest 7 FileLockMode.Exclusive false).startOffset
        = 18446744073709551615
    ∧ (windows.lockRequest 7 FileLockMode.Exclusive false).lockLength = 1
    ∧ ¬ ((windows.lockRequest 7 FileLockMode.Exclusive false).startOffset = 0
        ∧ (windows.lockRequest 7 FileLockMode.Exclusive false).lockLength
            = 18446744073709551615) := by
  refine ⟨rfl, rfl, fun hcontra => ?_⟩
  have h1 : (18446744073709551615 : Nat) = 0 := by
    calc (18446744073709551615 : Nat)
        = (windows.lockRequest 7 FileLockMode.Exclusive false).startOffset := rfl
      _ = 0 := hcontra.1
  exact absurd h1 (by norm_num)

/-- Claim C1 (amended): for every raw handle, lock mode and blocking variant,
the Windows backend's lock operation requests a native byte-range lock of
exactly 1 byte starting at the maximal representable offset 2^64 - 1 (both
32-bit offset halves set to `u32::MAX`, byte count low = 1, high = 0); it does
not lock the range from offset 0 of maximal length. -/
theorem spec_C1_amended (raw_handle : Int) (file_lock_mode : FileLockMode)
    (immediate : Bool) :
    (windows.lockRequest raw_handle file_lock_mode immediate).startOffset
        = 18446744073709551615
    ∧ (windows.lockRequest raw_handle file_lock_mode immediate).lockLength = 1 := by
  have e1 : (windows.lockRequest raw_handle file_lock_mode immediate).lpOverlapped
      = windows.create_overlapped := rfl
  have e2 : (windows.lockRequest raw_handle file_lock_mode immediate).nNumberOfBytesToLockLow
      = 1 := rfl
  have e3 : (windows.lockRequest raw_handle file_lock_mode immediate).nNumberOfBytesToLockHigh
      = 0 := rfl
  unfold windows.LockFileExCall.startOffset windows.LockFileExCall.lockLength
  rw [e1, e2, e3]
  exact ⟨rfl, rfl⟩

/-- Claim C2 (counterexample): with the blocking variant (non-blocking NOT
requested) and a native failure whose OS error is `EWOULDBLOCK` (11), the POSIX
`lock_file` returns `AlreadyLocked` — the claim demands `IOError` there, and
the two outcomes differ. -/
theorem spec_C2_counterexample :
    unix.lock_file
        (fun _ _ => { result := -1, last_os_error := { raw_os_error := some 11 } })
        3 FileLockMode.Shared false
      = Except.error FileLockError.AlreadyLocked
    ∧ FileLockError.AlreadyLocked
        ≠ FileLockError.Io { raw_os_error := some 11 } :=
  ⟨rfl, by decide⟩

/-- Claim C2 (amended): for every lock mode and both variants, the POSIX
`lock_file` maps native success to `Ok`; a native failure maps to
`AlreadyLocked` exactly when the OS error is `EWOULDBLOCK` — regardless of
whether the non-blocking variant was requested — and every other native
failure maps to `IOError` wrapping that OS error. -/
theorem spec_C2_amended (file_lock_mode : FileLockMode) (immediate : Bool)
    (raw_fd : Int) (out : unix.FlockOutcome) :
    (out.result = 0 →
      unix.lock_file (fun _ _ => out) raw_fd file_lock_mode immediate = Except.ok ())
    ∧ (out.result ≠ 0 → out.last_os_error.raw_os_error = some unix.EWOULDBLOCK →
      unix.lock_file (fun _ _ => out) raw_fd file_lock_mode immediate
        = Except.error FileLockError.AlreadyLocked)
    ∧ (out.result ≠ 0 → out.last_os_error.raw_os_error ≠ some unix.EWOULDBLOCK →
      unix.lock_file (fun _ _ => out) raw_fd file_lock_mode immediate
        = Except.error (FileLockError.Io out.last_os_error)) := by
  rw [unix_lock_file_const_eq]
  refine ⟨?_, ?_, ?_⟩
  · intro h; simp [h]
  · intro h hw; simp [h, hw]
  · intro h hw
    cases hcode : out.last_os_error.raw_os_error with
    | none => simp [h]
    | some code =>
        have hne : ¬ code = unix.EWOULDBLOCK := by
          intro hc
          exact hw (by rw [hcode, hc])
        simp [h, hne]

/-- Claim C2 (witness): instantiation of the amended claim at a concrete
failing outcome with OS error 11 under the non-blocking variant. -/
theorem spec_C2_amended_witness :
    unix.lock_file
        (fun _ _ => { result := -1, last_os_error := { raw_os_error := some 11 } })
        5 FileLockMode.Exclusive true
      = Except.error FileLockError.AlreadyLocked :=
  (spec_C2_amended FileLockMode.Exclusive true 5
      { result := -1, last_os_error := { raw_os_error := some 11 } }).2.1
    (by decide) rfl

/-- Claim C3 (counterexample): an execution of the blocking lock operation that
returns `AlreadyLocked`: the windows `lock_impl` (blocking) on a handle in
Shared mode, when the native `LockFileEx` fails with `GetLastError() ==
ERROR_LOCKED` (212). -/
theorem spec_C3_counterexample :
    (AdvisoryFileLock.lock_impl_windows (fun _ => { result := 0, lastError := 212 })
        { file := { handle := 7 }, file_lock_mode := FileLockMode.Shared }).1
      = Except.error FileLockError.AlreadyLocked := rfl

/-- Claim C3 (amended): for every handle and lock mode, the blocking lock
operation returns `Ok` on native success and `IOError` on a native failure
with any other code, but it returns `AlreadyLocked` exactly when the native
call itself fails with the would-block code (`EWOULDBLOCK` on POSIX,
`ERROR_LOCKED` on Windows): the blocking path does not suppress the
`AlreadyLocked` mapping. -/
theorem spec_C3_amended (out : unix.FlockOutcome) (wout : windows.WinOutcome)
    (selfU selfW : AdvisoryFileLock) :
    ((selfU.lock_impl_unix (fun _ _ => out)).1 = Except.error FileLockError.AlreadyLocked
      ↔ out.result ≠ 0 ∧ out.last_os_error.raw_os_error = some unix.EWOULDBLOCK)
    ∧ (out.result = 0 → (selfU.lock_impl_unix (fun _ _ => out)).1 = Except.ok ())
    ∧ (out.result ≠ 0 → out.last_os_error.raw_os_error ≠ some unix.EWOULDBLOCK →
        (selfU.lock_impl_unix (fun _ _ => out)).1
          = Except.error (FileLockError.Io out.last_os_error))
    ∧ ((selfW.lock_impl_windows (fun _ => wout)).1 = Except.error FileLockError.AlreadyLocked
      ↔ wout.result ≠ windows.TRUE ∧ wout.lastError = windows.ERROR_LOCKED)
    ∧ (wout.result = windows.TRUE →
        (selfW.lock_impl_windows (fun _ => wout)).1 = Except.ok ())
    ∧ (wout.result ≠ windows.TRUE → wout.lastError ≠ windows.ERROR_LOCKED →
        (selfW.lock_impl_windows (fun _ => wout)).1
          = Except.error (FileLockError.Io
              (IoError.from_raw_os_error (windows.i32_of_u32 wout.lastError)))) := by
  have hu : (selfU.lock_impl_unix (fun _ _ => out)).1
      = unix.lock_file (fun _ _ => out) selfU.file.handle selfU.file_lock_mode false := rfl
  have hw : (selfW.lock_impl_windows (fun _ => wout)).1
      = windows.lock_file (fun _ => wout) selfW.file.handle selfW.file_lock_mode false := rfl
  rw [hu, hw, unix_lock_file_const_eq, windows_lock_file_const_eq]
  refine ⟨?_, ?_, ?_, ?_, ?_, ?_⟩
  · by_cases h : out.result = 0
    · simp [h]
    · cases hcode : out.last_os_error.raw_os_error with
      | none => simp [h]
      | some code =>
          by_cases hc : code = unix.EWOULDBLOCK
          · simp [h, hc]
          · simp [h, hc]
  · intro h; simp [h]
  · intro h hnw
    cases hcode : out.last_os_error.raw_os_error with
    | none => simp [h]
    | some code =>
        have hne : ¬ code = unix.EWOULDBLOCK := by
          intro hc
          exact hnw (by rw [hcode, hc])
        simp [h, hne]
  · by_cases h : wout.result = windows.TRUE
    · simp [h]
    · by_cases hc : wout.lastError = windows.ERROR_LOCKED
      · simp [h, hc]
      · simp [h, hc]
  · intro h; simp [h]
  · intro h hc; simp [h, hc]

/-- Claim C3 (witness): instantiation of the amended claim — a native success
outcome on both backends makes the blocking lock return `Ok`. -/
theorem spec_C3_amended_witness :
    (AdvisoryFileLock.lock_impl_unix
        (fun _ _ => { result := 0, last_os_error := { raw_os_error := none } })
        { file := { handle := 4 }, file_lock_mode := FileLockMode.Shared }).1
      = Except.ok ()
    ∧ (AdvisoryFileLock.lock_impl_windows (fun _ => { result := 1, lastError := 0 })
        { file := { handle := 4 }, file_lock_mode := FileLockMode.Shared }).1
      = Except.ok () :=
  ⟨(spec_C3_amended { result := 0, last_os_error := { raw_os_error := none } }
        { result := 1, lastError := 0 }
        { file := { handle := 4 }, file_lock_mode := FileLockMode.Shared }
        { file := { handle := 4 }, file_lock_mode := FileLockMode.Shared }).2.1 rfl,
    (spec_C3_amended { result := 0, last_os_error := { raw_os_error := none } }
        { result := 1, lastError := 0 }
        { file := { handle := 4 }, file_lock_mode := FileLockMode.Shared }
        { file := { handle := 4 }, file_lock_mode := FileLockMode.Shared }).2.2.2.2.1 rfl⟩

/-- Claim C4 (confirmed): for every handle, the Windows backend's unlock
operation returns success both when the native range-unlock call succeeds and
when it fails with `ERROR_NOT_LOCKED`; any other native failure code is
returned as `IOError` wrapping that code. -/
theorem spec_C4 (raw_handle : Int) (wout : windows.WinOutcome) :
    (wout.result = windows.TRUE →
      windows.unlock_file (fun _ => wout) raw_handle = Except.ok ())
    ∧ (wout.result ≠ windows.TRUE → wout.lastError = windows.ERROR_NOT_LOCKED →
      windows.unlock_file (fun _ => wout) raw_handle = Except.ok ())
    ∧ (wout.result ≠ windows.TRUE → wout.lastError ≠ windows.ERROR_NOT_LOCKED →
      windows.unlock_file (fun _ => wout) raw_handle
        = Except.error (FileLockError.Io
            (IoError.from_raw_os_error (windows.i32_of_u32 wout.lastError)))) := by
  rw [windows_unlock_file_const_eq]
  refine ⟨?_, ?_, ?_⟩
  · intro h; simp [h]
  · intro h hc; simp [h, hc]
  · intro h hc; simp [h, hc]

/-- Claim C4 (witness): a failed native unlock with `GetLastError() ==
ERROR_NOT_LOCKED` (158) is mapped to success. -/
theorem spec_C4_witness :
    windows.unlock_file (fun _ => { result := 0, lastError := 158 }) 9 = Except.ok () :=
  (spec_C4 9 { result := 0, lastError := 158 }).2.1 (by decide) rfl

/-- Claim C5 (confirmed): for every handle, the POSIX backend's unlock issues
`flock(fd, LOCK_UN)` and returns `Ok` when the native call succeeds and
`IOError` wrapping the OS error for every native failure; no error code is
special-cased — in particular it never returns `AlreadyLocked` and never
converts a failure to success. -/
theorem spec_C5 (raw_fd : Int) (flockFn : Int → Nat → unix.FlockOutcome) :
    ((flockFn raw_fd unix.LOCK_UN).result = 0 →
      unix.unlock_file flockFn raw_fd = Except.ok ())
    ∧ ((flockFn raw_fd unix.LOCK_UN).result ≠ 0 →
      unix.unlock_file flockFn raw_fd
        = Except.error (FileLockError.Io (flockFn raw_fd unix.LOCK_UN).last_os_error))
    ∧ unix.unlock_file flockFn raw_fd ≠ Except.error FileLockError.AlreadyLocked := by
  rw [unix_unlock_file_eq]
  refine ⟨?_, ?_, ?_⟩
  · intro h; simp [h]
  · intro h; simp [h]
  · by_cases h : (flockFn raw_fd unix.LOCK_UN).result = 0
    · simp [h]
    · simp [h]

/-- Claim C5 (witness): a failed native unlock with OS error 9 surfaces as
`IOError` wrapping that error. -/
theorem spec_C5_witness :
    unix.unlock_file
        (fun _ _ => { result := -1, last_os_error := { raw_os_error := some 9 } }) 2
      = Except.error (FileLockError.Io { raw_os_error := some 9 }) :=
  (spec_C5 2
      (fun _ _ => { result := -1, last_os_error := { raw_os_error := some 9 } })).2.1
    (by decide)

/-- Claim C6 (confirmed): the option set the constructor passes to the native
file open has read, write and create all enabled for Exclusive mode, and read
only — write and create disabled — for Shared mode. -/
theorem spec_C6 :
    AdvisoryFileLock.openOptionsFor FileLockMode.Exclusive
      = { readFlag := true, writeFlag := true, createFlag := true }
    ∧ AdvisoryFileLock.openOptionsFor FileLockMode.Shared
      = { readFlag := true, writeFlag := false, createFlag := false } :=
  ⟨rfl, rfl⟩

/-- Claim C7 (confirmed): for every lock mode and both variants, the Windows
backend's lock maps native success to `Ok`, a native failure with
`GetLastError() == ERROR_LOCKED` to `AlreadyLocked`, and any other failure
code to `IOError` wrapping that code. -/
theorem spec_C7 (raw_handle : Int) (file_lock_mode : FileLockMode)
    (immediate : Bool) (wout : windows.WinOutcome) :
    (wout.result = windows.TRUE →
      windows.lock_file (fun _ => wout) raw_handle file_lock_mode immediate
        = Except.ok ())
    ∧ (wout.result ≠ windows.TRUE → wout.lastError = windows.ERROR_LOCKED →
      windows.lock_file (fun _ => wout) raw_handle file_lock_mode immediate
        = Except.error FileLockError.AlreadyLocked)
    ∧ (wout.result ≠ windows.TRUE → wout.lastError ≠ windows.ERROR_LOCKED →
      windows.lock_file (fun _ => wout) raw_handle file_lock_mode immediate
        = Except.error (FileLockError.Io
            (IoError.from_raw_os_error (windows.i32_of_u32 wout.lastError)))) := by
  rw [windows_lock_file_const_eq]
  refine ⟨?_, ?_, ?_⟩
  · intro h; simp [h]
  · intro h hc; simp [h, hc]
  · intro h hc; simp [h, hc]

/-- Claim C7 (witness): a failed native lock with `GetLastError() ==
ERROR_LOCKED` (212) is mapped to `AlreadyLocked`. -/
theorem spec_C7_witness :
    windows.lock_file (fun _ => { result := 0, lastError := 212 }) 1
        FileLockMode.Shared true
      = Except.error FileLockError.AlreadyLocked :=
  (spec_C7 1 FileLockMode.Shared true { result := 0, lastError := 212 }).2.1
    (by decide) rfl

/-- Claim C8 (confirmed): when a handle is destroyed, an unlock is attempted
on it; if that unlock fails the error is emitted only as a log line (the
destructor's return type carries log lines only, no error channel), and if it
succeeds nothing is emitted. Both backends. -/
theorem spec_C8 (self : AdvisoryFileLock) (flockFn : Int → Nat → unix.FlockOutcome)
    (uapi : windows.UnlockFileExCall → windows.WinOutcome) :
    (∀ e, (self.unlock_impl_unix flockFn).1 = Except.error e →
      self.dropUnix flockFn = ["Unlock_file failed during dropping: " ++ e.display])
    ∧ ((self.unlock_impl_unix flockFn).1 = Except.ok () →
      self.dropUnix flockFn = [])
    ∧ (∀ e, (self.unlock_impl_windows uapi).1 = Except.error e →
      self.dropWindows uapi = ["Unlock_file failed during dropping: " ++ e.display])
    ∧ ((self.unlock_impl_windows uapi).1 = Except.ok () →
      self.dropWindows uapi = []) := by
  refine ⟨?_, ?_, ?_, ?_⟩
  · intro e he
    unfold AdvisoryFileLock.dropUnix
    rw [he]
  · intro he
    unfold AdvisoryFileLock.dropUnix
    rw [he]
  · intro e he
    unfold AdvisoryFileLock.dropWindows
    rw [he]
  · intro he
    unfold AdvisoryFileLock.dropWindows
    rw [he]

/-- Claim C8 (witness): a concrete failing implicit unlock during drop emits
exactly the one log line rendering the error. -/
theorem spec_C8_witness :
    AdvisoryFileLock.dropUnix
        (fun _ _ => { result := -1, last_os_error := { raw_os_error := some 9 } })
        { file := { handle := 3 }, file_lock_mode := FileLockMode.Shared }
      = ["Unlock_file failed during dropping: "
          ++ (FileLockError.Io { raw_os_error := some 9 }).display] :=
  (spec_C8 { file := { handle := 3 }, file_lock_mode := FileLockMode.Shared }
      (fun _ _ => { result := -1, last_os_error := { raw_os_error := some 9 } })
      (fun _ => { result := 1, lastError := 0 })).1
    (FileLockError.Io { raw_os_error := some 9 }) rfl

/-- Claim C9 (confirmed): the lock mode chosen at construction is immutable —
any sequence of `lock`, `try_lock` and `unlock` operations (on either backend,
under any native outcomes) leaves the handle's mode field unchanged, so
`is_shared` and `is_exclusive` return the same values after the sequence as
immediately after construction. -/
theorem spec_C9 (self : AdvisoryFileLock) (ops : List LockOp)
    (flockFn : Int → Nat → unix.FlockOutcome)
    (lapi : windows.LockFileExCall → windows.WinOutcome)
    (uapi : windows.UnlockFileExCall → windows.WinOutcome) :
    (AdvisoryFileLock.runUnix flockFn self ops).file_lock_mode = self.file_lock_mode
    ∧ (AdvisoryFileLock.runUnix flockFn self ops).is_shared = self.is_shared
    ∧ (AdvisoryFileLock.runUnix flockFn self ops).is_exclusive = self.is_exclusive
    ∧ (AdvisoryFileLock.runWindows lapi uapi self ops).file_lock_mode = self.file_lock_mode
    ∧ (AdvisoryFileLock.runWindows lapi uapi self ops).is_shared = self.is_shared
    ∧ (AdvisoryFileLock.runWindows lapi uapi self ops).is_exclusive = self.is_exclusive := by
  have hu := runUnix_mode flockFn ops self
  have hw := runWindows_mode lapi uapi ops self
  refine ⟨hu, ?_, ?_, hw, ?_, ?_⟩ <;>
    simp [AdvisoryFileLock.is_shared, AdvisoryFileLock.is_exclusive, hu, hw]

/-- Claim C10 (confirmed): for every path and mode, the constructor either
returns a handle built from the opened file, or the `IOError` variant wrapping
the underlying file-open error; it never returns `AlreadyLocked`, and on
failure no handle is produced (the error branch carries none). -/
theorem spec_C10 (path : String) (file_lock_mode : FileLockMode)
    (openFn : String → OpenOptions → Except IoError File) :
    (∀ e, openFn path (AdvisoryFileLock.openOptionsFor file_lock_mode) = Except.error e →
      AdvisoryFileLock.new openFn path file_lock_mode
        = Except.error (FileLockError.Io e))
    ∧ (∀ f, openFn path (AdvisoryFileLock.openOptionsFor file_lock_mode) = Except.ok f →
      AdvisoryFileLock.new openFn path file_lock_mode
        = Except.ok { file := f, file_lock_mode := file_lock_mode })
    ∧ AdvisoryFileLock.new openFn path file_lock_mode
        ≠ Except.error FileLockError.AlreadyLocked := by
  refine ⟨?_, ?_, ?_⟩
  · intro e he
    unfold AdvisoryFileLock.new
    rw [he]
  · intro f hf
    unfold AdvisoryFileLock.new
    rw [hf]
  · unfold AdvisoryFileLock.new
    cases ho : openFn path (AdvisoryFileLock.openOptionsFor file_lock_mode) with
    | error e => simp
    | ok f => simp

/-- Claim C10 (witness): a concrete failing open (OS error 2) makes the
constructor return `IOError` wrapping it. -/
theorem spec_C10_witness :
    AdvisoryFileLock.new (fun _ _ => Except.error { raw_os_error := some 2 })
        "foo.txt" FileLockMode.Shared
      = Except.error (FileLockError.Io { raw_os_error := some 2 }) :=
  (spec_C10 "foo.txt" FileLockMode.Shared
      (fun _ _ => Except.error { raw_os_error := some 2 })).1
    { raw_os_error := some 2 } rfl

end AdvisoryLock
